import Mathlib

/-!
Verification of the scrub-coordination value types and control logic of
`src/osd/scrubber_common.h` (Ceph OSD scrubber common declarations).

The header under scrutiny declares the shared value types (`OSDRestrictions`,
`ScrubPGPreconds`, `schedule_result_t`, `scrub_schedule_t`, `delay_cause_t`)
and the abstract `ScrubPgIF` interface. The concrete scrubber implementation
(PgScrubber / ScrubMachine / OsdScrub) is not part of the sources examined
here; where a claim depends on that behaviour, the corresponding definition
is modelled from the specification document and marked as such in its doc
comment.
-/

namespace Scrub

/-- Embedding of ceph `utime_t` (a second/nanosecond timestamp pair);
comparison is lexicographic over the two components, as for the C++
member-wise ordering of the underlying `timespec`. -/
structure utime_t where
  tv_sec : Nat
  tv_nsec : Nat
deriving DecidableEq, Repr

/-- `utime_t::max()`: the largest representable timestamp (both 32-bit
components saturated). Used as the default for both schedule fields. -/
def utime_t.max_val : utime_t :=
  { tv_sec := 4294967295, tv_nsec := 4294967295 }

/-- Three-way comparison of two timestamps: seconds first, then nanoseconds. -/
def utime_t.cmp (a b : utime_t) : Ordering :=
  match compare a.tv_sec b.tv_sec with
  | Ordering.eq => compare a.tv_nsec b.tv_nsec
  | o => o

/-- Boolean `a <= b` on timestamps, derived from the three-way comparison. -/
def utime_t.le_b (a b : utime_t) : Bool :=
  utime_t.cmp a b ≠ Ordering.gt

/-- `std::max` of two timestamps (returns `b` when equal, as `std::max` does
when handed `(a, b)` with `a <= b`). -/
def utime_t.max_of (a b : utime_t) : utime_t :=
  if utime_t.le_b a b then b else a

/-- `scrub_level_t` (declared in osd_types.h, used by the header):
shallow vs deep scrub. -/
inductive scrub_level_t where
  | shallow
  | deep
deriving DecidableEq, Repr, Fintype

/-- `Scrub::schedule_result_t`: possible outcome when trying to select a PG
and scrub it (scrubber_common.h lines 122-126). -/
inductive schedule_result_t where
  | scrub_initiated
  | target_specific_failure
  | osd_wide_failure
deriving DecidableEq, Repr, Fintype

/-- `Scrub::delay_cause_t`: the result of the last attempt to schedule a
scrub for a specific PG (scrubber_common.h lines 210-221). -/
inductive delay_cause_t where
  | none
  | replicas
  | flags
  | pg_state
  | snap_trimming
  | restricted_time
  | local_resources
  | aborted
  | interval
  | scrub_params
deriving DecidableEq, Repr, Fintype

/-- `Scrub::OSDRestrictions` (scrubber_common.h lines 94-109): the
"environment" preconditions affecting which PGs are eligible for scrubbing.
Five boolean flags, each brace-initialised to `false` in the source. -/
structure OSDRestrictions where
  max_concurrency_reached : Bool := false
  random_backoff_active : Bool := false
  cpu_overloaded : Bool := false
  restricted_time : Bool := false
  recovery_in_progress : Bool := false
deriving DecidableEq, Repr, Fintype

/-- The default-constructed `OSDRestrictions` (all members use their
brace-initialisers). -/
def OSDRestrictions.default_val : OSDRestrictions := {}

/-- A bit-packing of the five flags, witnessing that the whole struct fits in
a single 32-bit machine word (the header's
`static_assert(sizeof(OSDRestrictions) <= sizeof(uint32_t))`). -/
def OSDRestrictions.encode (r : OSDRestrictions) : Nat :=
  r.max_concurrency_reached.toNat
    + 2 * r.random_backoff_active.toNat
    + 4 * r.cpu_overloaded.toNat
    + 8 * r.restricted_time.toNat
    + 16 * r.recovery_in_progress.toNat

/-- `Scrub::ScrubPGPreconds` (scrubber_common.h lines 114-118): concise
passing of PG state affecting scrub, with the source's brace-initialisers. -/
structure ScrubPGPreconds where
  allow_shallow : Bool := true
  allow_deep : Bool := true
  can_autorepair : Bool := false
deriving DecidableEq, Repr, Fintype

/-- The default-constructed `ScrubPGPreconds`. -/
def ScrubPGPreconds.default_val : ScrubPGPreconds := {}

/-- Whether the PG preconditions permit the requested scrub level. -/
def ScrubPGPreconds.allows (pre : ScrubPGPreconds) : scrub_level_t → Bool
  | scrub_level_t.shallow => pre.allow_shallow
  | scrub_level_t.deep => pre.allow_deep

/-- `Scrub::scrub_schedule_t` (scrubber_common.h lines 130-158): the basic
scheduling information of a scrub target, with the source's defaults
(`utime_t::max()` for both fields). -/
structure scrub_schedule_t where
  not_before : utime_t := utime_t.max_val
  scheduled_at : utime_t := utime_t.max_val
deriving DecidableEq, Repr

/-- `scrub_schedule_t::operator<=>` (scrubber_common.h lines 150-155): when
compared, the `not_before` is ignored; only `scheduled_at` is compared. -/
def scrub_schedule_t.cmp (a b : scrub_schedule_t) : Ordering :=
  utime_t.cmp a.scheduled_at b.scheduled_at

/-- `scrub_schedule_t::operator==` (scrubber_common.h line 157): defaulted,
hence member-wise over both fields. -/
def scrub_schedule_t.beq (a b : scrub_schedule_t) : Bool :=
  decide (a.not_before = b.not_before) && decide (a.scheduled_at = b.scheduled_at)

/-- Outcome of the Scheduling Gate. -/
inductive gate_decision_t where
  | accepted (kind : scrub_level_t) (autorepair : Bool)
  | rejected (cause : delay_cause_t)
deriving DecidableEq, Repr

/-- Modelled from the spec: the Scheduling Gate `decide` function of §4.3
(the concrete gate implementation lives in the scrubber sources outside the
examined header, which only declares its parameter and result types).
Evaluation order follows the spec's rules 1-6, first match wins:
rule 1 concurrency, rule 2 backoff, rule 3 time/CPU (all three bypassed by
high priority), rule 4 requested-kind vs group preconditions, rule 5
recovery (the `recovery_in_progress` flag is set, per the header's own
comment, only when a recovery is in progress and the policy disallows
scrubbing during recovery; the spec states high-priority requests remain
subject to rules 4-5), rule 6 accept carrying the autorepair permission. -/
def gate_decide (high_priority : Bool) (restr : OSDRestrictions)
    (pre : ScrubPGPreconds) (kind : scrub_level_t) : gate_decision_t :=
  if restr.max_concurrency_reached && !high_priority then
    gate_decision_t.rejected delay_cause_t.local_resources
  else if restr.random_backoff_active && !high_priority then
    gate_decision_t.rejected delay_cause_t.local_resources
  else if (restr.restricted_time || restr.cpu_overloaded) && !high_priority then
    gate_decision_t.rejected delay_cause_t.restricted_time
  else if !(pre.allows kind) then
    gate_decision_t.rejected delay_cause_t.scrub_params
  else if restr.recovery_in_progress then
    gate_decision_t.rejected delay_cause_t.restricted_time
  else
    gate_decision_t.accepted kind pre.can_autorepair

/-- Modelled from the spec: `start_scrub_session` of §4.1 (the PgScrubber
implementation of `ScrubPgIF::start_scrub_session` is not part of the
examined header, which only declares the virtual entry point at lines
444-447). It checks the PG state (active+clean, snap-trimming) — failures
specific to this target — then consults the Scheduling Gate; a gate
rejection for the requested kind is target-specific, while the fleet-wide
gate rejections (concurrency, backoff, time/CPU, recovery) fail the whole
node for this tick. On acceptance the FSM enters ReservingReplicas and the
attempt reports success. Returns the `schedule_result_t` together with the
recorded `delay_cause_t` of the attempt. -/
def start_scrub_session (pg_active_clean : Bool) (pg_snap_trimming : Bool)
    (high_priority : Bool) (kind : scrub_level_t)
    (restr : OSDRestrictions) (pre : ScrubPGPreconds) :
    schedule_result_t × delay_cause_t :=
  if !pg_active_clean then
    (schedule_result_t.target_specific_failure, delay_cause_t.pg_state)
  else if pg_snap_trimming then
    (schedule_result_t.target_specific_failure, delay_cause_t.snap_trimming)
  else
    match gate_decide high_priority restr pre kind with
    | gate_decision_t.accepted _ _ =>
        (schedule_result_t.scrub_initiated, delay_cause_t.none)
    | gate_decision_t.rejected delay_cause_t.scrub_params =>
        (schedule_result_t.target_specific_failure, delay_cause_t.scrub_params)
    | gate_decision_t.rejected c =>
        (schedule_result_t.osd_wide_failure, c)

/-- Modelled from the spec: pushing the `not_before` stamp of a schedule
when a scheduling attempt fails and must be retried later (the ScrubJob
code holding this update is not part of the examined header; the header
documents the field as "Never decreasing after scheduled_at is set", lines
131-134). The new earliest-start time is the later of the present
`not_before` and `now + delay`; `scheduled_at` is left untouched. -/
def delay_on_failure (sched : scrub_schedule_t) (now : utime_t)
    (delay : Nat) : scrub_schedule_t :=
  { sched with
    not_before :=
      utime_t.max_of
        { tv_sec := now.tv_sec + delay, tv_nsec := now.tv_nsec }
        sched.not_before }

/-- Repeated `not_before` pushes over one scheduling attempt: each list
element is a `(now, delay)` pair handed to `delay_on_failure`. -/
def run_delays (sched : scrub_schedule_t) :
    List (utime_t × Nat) → scrub_schedule_t
  | [] => sched
  | (now, d) :: rest => run_delays (delay_on_failure sched now d) rest

/-- Modelled from the spec: the states of the per-group scrub state machine
of §4.1 (primary role: Idle, ReservingReplicas, RangeBlocked,
ActiveScanning, WaitingDigestUpdate, Finishing; replica role:
ReplicaReserved, ReplicaActive). The ScrubMachine implementation is not
part of the examined header. -/
inductive FsmState where
  | idle
  | reserving_replicas
  | range_blocked
  | active_scanning
  | waiting_digest_update
  | finishing
  | replica_reserved
  | replica_active
deriving DecidableEq, Repr

/-- The epoch-carrying state-machine events of the `ScrubPgIF` interface
(scrubber_common.h lines 353-383): one constructor per event-triggering
operation that takes an `epoch_queued` parameter. -/
inductive ScrubEvent where
  | initiate_regular_scrub (epoch_queued : Nat)
  | send_scrub_resched (epoch_queued : Nat)
  | active_pushes_notification (epoch_queued : Nat)
  | update_applied_notification (epoch_queued : Nat)
  | digest_update_notification (epoch_queued : Nat)
  | send_scrub_unblock (epoch_queued : Nat)
  | send_replica_maps_ready (epoch_queued : Nat)
  | send_replica_pushes_upd (epoch_queued : Nat)
  | send_start_replica (epoch_queued : Nat) (token : Nat)
  | send_sched_replica (epoch_queued : Nat) (token : Nat)
  | send_chunk_free (epoch_queued : Nat)
  | send_chunk_busy (epoch_queued : Nat)
  | send_local_map_done (epoch_queued : Nat)
  | send_get_next_chunk (epoch_queued : Nat)
  | send_scrub_is_finished (epoch_queued : Nat)
deriving DecidableEq, Repr

/-- The `epoch_queued` carried by an event. -/
def ScrubEvent.epoch_queued : ScrubEvent → Nat
  | initiate_regular_scrub e => e
  | send_scrub_resched e => e
  | active_pushes_notification e => e
  | update_applied_notification e => e
  | digest_update_notification e => e
  | send_scrub_unblock e => e
  | send_replica_maps_ready e => e
  | send_replica_pushes_upd e => e
  | send_start_replica e _ => e
  | send_sched_replica e _ => e
  | send_chunk_free e => e
  | send_chunk_busy e => e
  | send_local_map_done e => e
  | send_get_next_chunk e => e
  | send_scrub_is_finished e => e

/-- Outgoing messages the state machine may emit while handling an event. -/
inductive OutMsg where
  | reserve_request
  | replica_map_to_primary
  | chunk_boundary_request
  | scrub_done_notice
deriving DecidableEq, Repr

/-- The per-group machine state: the group's currently-active epoch plus
the FSM state. -/
structure MachineState where
  current_epoch : Nat
  fsm : FsmState
deriving DecidableEq, Repr

/-- Modelled from the spec: the event dispatch of the scrub state machine
(§4.1), reached only after the epoch guard has admitted the event. Each
handler performs at most one state transition plus outgoing message sends;
an event arriving in a state that does not accept it leaves the machine
unchanged (the spec treats that as a host-contract violation, not a
recoverable transition). -/
def handle_event (st : MachineState) : ScrubEvent → MachineState × List OutMsg
  | ScrubEvent.initiate_regular_scrub _ =>
      if st.fsm = FsmState.idle then
        ({ st with fsm := FsmState.reserving_replicas }, [OutMsg.reserve_request])
      else (st, [])
  | ScrubEvent.send_scrub_resched _ => (st, [])
  | ScrubEvent.active_pushes_notification _ => (st, [])
  | ScrubEvent.update_applied_notification _ => (st, [])
  | ScrubEvent.digest_update_notification _ =>
      if st.fsm = FsmState.waiting_digest_update then
        ({ st with fsm := FsmState.finishing }, [])
      else (st, [])
  | ScrubEvent.send_scrub_unblock _ =>
      if st.fsm = FsmState.range_blocked then
        ({ st with fsm := FsmState.active_scanning }, [])
      else (st, [])
  | ScrubEvent.send_replica_maps_ready _ =>
      if st.fsm = FsmState.active_scanning then
        ({ st with fsm := FsmState.waiting_digest_update }, [])
      else (st, [])
  | ScrubEvent.send_replica_pushes_upd _ => (st, [])
  | ScrubEvent.send_start_replica _ _ =>
      if st.fsm = FsmState.replica_reserved then
        ({ st with fsm := FsmState.replica_active }, [])
      else (st, [])
  | ScrubEvent.send_sched_replica _ _ => (st, [])
  | ScrubEvent.send_chunk_free _ =>
      if st.fsm = FsmState.range_blocked then
        ({ st with fsm := FsmState.active_scanning }, [])
      else (st, [])
  | ScrubEvent.send_chunk_busy _ =>
      if st.fsm = FsmState.active_scanning then
        ({ st with fsm := FsmState.range_blocked }, [])
      else (st, [])
  | ScrubEvent.send_local_map_done _ =>
      if st.fsm = FsmState.replica_active then
        ({ st with fsm := FsmState.idle }, [OutMsg.replica_map_to_primary])
      else (st, [])
  | ScrubEvent.send_get_next_chunk _ =>
      if st.fsm = FsmState.active_scanning then
        (st, [OutMsg.chunk_boundary_request])
      else (st, [])
  | ScrubEvent.send_scrub_is_finished _ =>
      if st.fsm = FsmState.finishing then
        ({ st with fsm := FsmState.idle }, [OutMsg.scrub_done_notice])
      else (st, [])

/-- Modelled from the spec: processing of one state-machine event (§4.1 and
the §3 epoch invariant). The event's epoch is validated against the group's
currently-active epoch first; a stale event is discarded with no state
transition and no outgoing message. -/
def process_event (st : MachineState) (e : ScrubEvent) :
    MachineState × List OutMsg :=
  if e.epoch_queued = st.current_epoch then handle_event st e else (st, [])

/-- Modelled from the spec: the Write-Block / Preemption Tracker of §4.4
(the PgScrubber state behind `ScrubPgIF::write_blocked_by_scrub`, declared
at line 490 of the examined header, is not itself in the header). It holds
the half-open object-key range claimed by the active chunk, a preemptible
flag, and the mark telling the chunk loop to restart the chunk boundary
after a preemption. Object keys are abstracted to naturals, respecting the
key order. -/
structure BlockedRangeTracker where
  /-- the half-open key range `[lo, hi)` claimed by the active chunk, if any -/
  claimed : Option (Nat × Nat)
  /-- the in-progress chunk may yield to a conflicting writer -/
  preemptible : Bool
  /-- set after a preemption so the chunk loop restarts the chunk boundary -/
  chunk_restart_marked : Bool
deriving DecidableEq, Repr

/-- Whether an object key lies inside the claimed chunk range. -/
def BlockedRangeTracker.in_claimed_range (st : BlockedRangeTracker)
    (soid : Nat) : Bool :=
  match st.claimed with
  | Option.none => false
  | Option.some (lo, hi) => decide (lo ≤ soid) && decide (soid < hi)

/-- Modelled from the spec: `write_blocked_by_scrub` (§4.1/§4.4, declared
as `ScrubPgIF::write_blocked_by_scrub` at lines 481-490 of the header).
Returns true when the key is inside the claimed chunk range and the write
must wait; when the tracker is preemptible, a conflicting write instead
preempts the chunk claim — the range is released, the chunk is marked for
restart — and the call returns false. Keys outside the range never block. -/
def write_blocked_by_scrub (st : BlockedRangeTracker) (soid : Nat) :
    BlockedRangeTracker × Bool :=
  if st.in_claimed_range soid then
    if st.preemptible then
      ({ st with claimed := Option.none, chunk_restart_marked := true }, false)
    else (st, true)
  else (st, false)

/- ------------------------ helper lemmas ------------------------ -/

theorem utime_cmp_gt_iff (a b : utime_t) :
    utime_t.cmp a b = Ordering.gt ↔
      b.tv_sec < a.tv_sec ∨ (a.tv_sec = b.tv_sec ∧ b.tv_nsec < a.tv_nsec) := by
  unfold utime_t.cmp
  rcases h : compare a.tv_sec b.tv_sec
  · rw [Nat.compare_eq_lt] at h
    simp only []
    constructor
    · intro hc
      cases hc
    · intro hc
      omega
  · rw [Nat.compare_eq_eq] at h
    simp only [Nat.compare_eq_gt]
    omega
  · rw [Nat.compare_eq_gt] at h
    simp only []
    constructor
    · intro _
      omega
    · intro _
      trivial

theorem utime_le_b_iff (a b : utime_t) :
    utime_t.le_b a b = true ↔
      a.tv_sec < b.tv_sec ∨ (a.tv_sec = b.tv_sec ∧ a.tv_nsec ≤ b.tv_nsec) := by
  unfold utime_t.le_b
  rw [decide_eq_true_eq, ne_eq, utime_cmp_gt_iff]
  omega

theorem utime_le_b_refl (a : utime_t) : utime_t.le_b a a = true := by
  rw [utime_le_b_iff]
  omega

theorem utime_le_b_trans (a b c : utime_t)
    (hab : utime_t.le_b a b = true) (hbc : utime_t.le_b b c = true) :
    utime_t.le_b a c = true := by
  rw [utime_le_b_iff] at hab hbc ⊢
  omega

theorem utime_le_b_max_of_right (a b : utime_t) :
    utime_t.le_b b (utime_t.max_of a b) = true := by
  unfold utime_t.max_of
  by_cases h : utime_t.le_b a b = true
  · rw [if_pos h]
    exact utime_le_b_refl b
  · rw [if_neg h]
    rw [utime_le_b_iff]
    have h2 : ¬(a.tv_sec < b.tv_sec ∨ (a.tv_sec = b.tv_sec ∧ a.tv_nsec ≤ b.tv_nsec)) :=
      fun hp => h ((utime_le_b_iff a b).mpr hp)
    omega

/- ------------------------ claim theorems ------------------------ -/

/-- C1: a state-machine event whose `epoch_queued` does not match the
group's currently-active epoch is silently discarded: no state transition,
no outgoing message, no other side effect. This covers every
event-triggering operation of `ScrubPgIF` carrying an `epoch_queued`
parameter (all constructors of `ScrubEvent`). -/
theorem stale_epoch_event_discarded (st : MachineState) (e : ScrubEvent)
    (h : e.epoch_queued ≠ st.current_epoch) :
    process_event st e = (st, []) := by
  unfold process_event
  rw [if_neg h]

/-- Witness for C1: a digest-update event queued at epoch 4 reaching a
machine whose active epoch is 5 leaves the machine unchanged and emits
nothing. -/
theorem stale_epoch_event_discarded_witness :
    process_event ⟨5, FsmState.waiting_digest_update⟩
        (ScrubEvent.digest_update_notification 4)
      = (⟨5, FsmState.waiting_digest_update⟩, []) :=
  stale_epoch_event_discarded ⟨5, FsmState.waiting_digest_update⟩
    (ScrubEvent.digest_update_notification 4) (by decide)

/-- C2: `write_blocked_by_scrub` returns true exactly when the key lies in
the claimed chunk range and the tracker is not preemptible (the write must
wait, and the tracker is untouched); a conflicting write that is not
blocked has triggered preemption — the claimed range is released and the
chunk is marked for restart. A conflicting write is never both unblocked
and left without preemption. -/
theorem write_block_or_preempt (st : BlockedRangeTracker) (soid : Nat) :
    ((write_blocked_by_scrub st soid).2 = true ↔
        st.in_claimed_range soid = true ∧ st.preemptible = false)
    ∧ (st.in_claimed_range soid = true →
        (write_blocked_by_scrub st soid).2 = false →
        (write_blocked_by_scrub st soid).1.claimed = Option.none ∧
        (write_blocked_by_scrub st soid).1.chunk_restart_marked = true)
    ∧ ((write_blocked_by_scrub st soid).2 = true →
        (write_blocked_by_scrub st soid).1 = st) := by
  unfold write_blocked_by_scrub
  by_cases h1 : st.in_claimed_range soid = true
  · by_cases h2 : st.preemptible = true
    · simp [h1, h2]
    · simp [h1, h2]
  · simp [h1]

/-- Witness for C2: with the chunk range `[2, 8)` claimed and preemption
off, a write to key 3 is blocked. -/
theorem write_block_or_preempt_witness :
    (write_blocked_by_scrub ⟨Option.some (2, 8), false, false⟩ 3).2 = true :=
  ((write_block_or_preempt ⟨Option.some (2, 8), false, false⟩ 3).1).mpr
    (by decide)

/-- Counterexample for C3: with only `recovery_in_progress` set, the group
preconditions allowing deep scrubs, and a high-priority deep request, the
gate rejects (rule 5, `restricted_time`) although the claim requires
acceptance for every combination of OSDRestrictions flags whenever the
preconditions allow the requested kind. -/
theorem gate_high_priority_recovery_cex :
    ScrubPGPreconds.allows ⟨true, true, false⟩ scrub_level_t.deep = true ∧
    gate_decide true ⟨false, false, false, false, true⟩ ⟨true, true, false⟩
        scrub_level_t.deep
      = gate_decision_t.rejected delay_cause_t.restricted_time := by
  decide

/-- C3 (amended): provided `recovery_in_progress` is clear, the gate
accepts a high-priority request whenever the group preconditions allow the
requested kind, regardless of the `max_concurrency_reached`,
`random_backoff_active`, `restricted_time` and `cpu_overloaded` flags; a
normal-priority request is rejected whenever any of those four flags is
set, with the matching cause: `local_resources` when the concurrency or
backoff rule fires first, `restricted_time` for the time/CPU rule. -/
theorem gate_exemption_amended (restr : OSDRestrictions)
    (pre : ScrubPGPreconds) (kind : scrub_level_t) :
    (restr.recovery_in_progress = false → pre.allows kind = true →
      gate_decide true restr pre kind
        = gate_decision_t.accepted kind pre.can_autorepair)
    ∧ ((restr.max_concurrency_reached = true ∨ restr.random_backoff_active = true) →
      gate_decide false restr pre kind
        = gate_decision_t.rejected delay_cause_t.local_resources)
    ∧ ((restr.restricted_time = true ∨ restr.cpu_overloaded = true) →
      restr.max_concurrency_reached = false → restr.random_backoff_active = false →
      gate_decide false restr pre kind
        = gate_decision_t.rejected delay_cause_t.restricted_time) := by
  obtain ⟨a, b, c, d, e⟩ := restr
  obtain ⟨f, g, h⟩ := pre
  cases kind <;> revert a b c d e f g h <;> decide

/-- Witness for C3 (amended): all four throttling flags set, recovery
clear — a high-priority deep request is accepted. -/
theorem gate_exemption_amended_witness :
    gate_decide true ⟨true, true, true, true, false⟩ ⟨true, true, false⟩
        scrub_level_t.deep
      = gate_decision_t.accepted scrub_level_t.deep false :=
  (gate_exemption_amended ⟨true, true, true, true, false⟩ ⟨true, true, false⟩
      scrub_level_t.deep).1 (by decide) (by decide)

/-- C4: the three-way comparison of `scrub_schedule_t` is determined by the
`scheduled_at` field only — two pairs agreeing on `scheduled_at` compare
identically whatever their `not_before` fields are. -/
theorem cmp_ignores_not_before (a b a2 b2 : scrub_schedule_t)
    (h1 : a.scheduled_at = a2.scheduled_at)
    (h2 : b.scheduled_at = b2.scheduled_at) :
    scrub_schedule_t.cmp a b = scrub_schedule_t.cmp a2 b2 := by
  unfold scrub_schedule_t.cmp
  rw [h1, h2]

/-- Witness for C4: changing only the `not_before` fields leaves the
comparison result unchanged. -/
theorem cmp_ignores_not_before_witness :
    scrub_schedule_t.cmp ⟨⟨1, 0⟩, ⟨5, 0⟩⟩ ⟨⟨2, 0⟩, ⟨6, 0⟩⟩
      = scrub_schedule_t.cmp ⟨⟨9, 9⟩, ⟨5, 0⟩⟩ ⟨⟨0, 0⟩, ⟨6, 0⟩⟩ :=
  cmp_ignores_not_before ⟨⟨1, 0⟩, ⟨5, 0⟩⟩ ⟨⟨2, 0⟩, ⟨6, 0⟩⟩
    ⟨⟨9, 9⟩, ⟨5, 0⟩⟩ ⟨⟨0, 0⟩, ⟨6, 0⟩⟩ rfl rfl

/-- C5: within one scheduling attempt, the `not_before` stamp never
decreases under any sequence of failure-delays, and `scheduled_at` is left
unchanged by them — so repeated reads of `not_before` never observe a
decrease once `scheduled_at` is set. -/
theorem not_before_monotonic (sched : scrub_schedule_t)
    (l : List (utime_t × Nat)) :
    utime_t.le_b sched.not_before (run_delays sched l).not_before = true ∧
    (run_delays sched l).scheduled_at = sched.scheduled_at := by
  induction l generalizing sched with
  | nil => exact ⟨utime_le_b_refl sched.not_before, rfl⟩
  | cons p rest ih =>
      obtain ⟨now, d⟩ := p
      have hstep :
          utime_t.le_b sched.not_before
            (delay_on_failure sched now d).not_before = true :=
        utime_le_b_max_of_right _ sched.not_before
      have h2 := ih (delay_on_failure sched now d)
      simp only [run_delays]
      exact ⟨utime_le_b_trans _ _ _ hstep h2.1, h2.2⟩

/-- C6: every call to `start_scrub_session` yields exactly one of the three
`schedule_result_t` outcomes, and each of the three outcomes is realised by
some call: success, a target-specific failure (try another group), or an
OSD-wide failure (stop trying any group this tick). -/
theorem start_scrub_session_outcomes :
    (∀ (pc ps hp : Bool) (kind : scrub_level_t) (restr : OSDRestrictions)
        (pre : ScrubPGPreconds),
      (start_scrub_session pc ps hp kind restr pre).1
          = schedule_result_t.scrub_initiated ∨
        (start_scrub_session pc ps hp kind restr pre).1
          = schedule_result_t.target_specific_failure ∨
        (start_scrub_session pc ps hp kind restr pre).1
          = schedule_result_t.osd_wide_failure)
    ∧ (start_scrub_session true false false scrub_level_t.shallow {} {}).1
        = schedule_result_t.scrub_initiated
    ∧ (start_scrub_session false false false scrub_level_t.shallow {} {}).1
        = schedule_result_t.target_specific_failure
    ∧ (start_scrub_session true false false scrub_level_t.shallow
          ⟨true, false, false, false, false⟩ {}).1
        = schedule_result_t.osd_wide_failure := by
  refine ⟨?_, by decide, by decide, by decide⟩
  intro pc ps hp kind restr pre
  cases hx : (start_scrub_session pc ps hp kind restr pre).1
  · exact Or.inl rfl
  · exact Or.inr (Or.inl rfl)
  · exact Or.inr (Or.inr rfl)

/-- C7: `delay_cause_t` is a closed taxonomy of exactly the ten listed
values — every value is one of the ten, the ten are pairwise distinct, and
there are no others. -/
theorem delay_cause_taxonomy :
    (∀ c : delay_cause_t,
      c ∈ [delay_cause_t.none, delay_cause_t.replicas, delay_cause_t.flags,
        delay_cause_t.pg_state, delay_cause_t.snap_trimming,
        delay_cause_t.restricted_time, delay_cause_t.local_resources,
        delay_cause_t.aborted, delay_cause_t.interval,
        delay_cause_t.scrub_params])
    ∧ [delay_cause_t.none, delay_cause_t.replicas, delay_cause_t.flags,
        delay_cause_t.pg_state, delay_cause_t.snap_trimming,
        delay_cause_t.restricted_time, delay_cause_t.local_resources,
        delay_cause_t.aborted, delay_cause_t.interval,
        delay_cause_t.scrub_params].Nodup
    ∧ [delay_cause_t.none, delay_cause_t.replicas, delay_cause_t.flags,
        delay_cause_t.pg_state, delay_cause_t.snap_trimming,
        delay_cause_t.restricted_time, delay_cause_t.local_resources,
        delay_cause_t.aborted, delay_cause_t.interval,
        delay_cause_t.scrub_params].length = 10 := by
  refine ⟨?_, by decide, by decide⟩
  intro c
  cases c <;> decide

/-- C8: `OSDRestrictions` is five independent boolean flags, each
defaulting to false, and the 32 possible flag combinations pack injectively
into a value below 2^32 — the struct fits one 32-bit machine word, as the
header's static assertion demands. -/
theorem osd_restrictions_word :
    OSDRestrictions.default_val.max_concurrency_reached = false ∧
    OSDRestrictions.default_val.random_backoff_active = false ∧
    OSDRestrictions.default_val.cpu_overloaded = false ∧
    OSDRestrictions.default_val.restricted_time = false ∧
    OSDRestrictions.default_val.recovery_in_progress = false ∧
    Function.Injective OSDRestrictions.encode ∧
    ∀ r : OSDRestrictions, OSDRestrictions.encode r < 2 ^ 32 := by
  refine ⟨rfl, rfl, rfl, rfl, rfl, by decide, by decide⟩

/-- C9: scheduler-ordering equivalence does not imply equality for
`scrub_schedule_t`: two values with equal `scheduled_at` but different
`not_before` compare as equivalent under `operator<=>` yet are unequal
under the defaulted member-wise `operator==`. -/
theorem cmp_eq_but_ne :
    ∃ a b : scrub_schedule_t,
      scrub_schedule_t.cmp a b = Ordering.eq ∧
      scrub_schedule_t.beq a b = false ∧ a ≠ b :=
  ⟨⟨⟨0, 0⟩, ⟨5, 0⟩⟩, ⟨⟨1, 0⟩, ⟨5, 0⟩⟩, by decide, by decide, by decide⟩

/-- C10: a default-constructed `ScrubPGPreconds` allows both scrub kinds
but not automatic repair. -/
theorem scrub_pg_preconds_defaults :
    ScrubPGPreconds.default_val.allow_shallow = true ∧
    ScrubPGPreconds.default_val.allow_deep = true ∧
    ScrubPGPreconds.default_val.can_autorepair = false := by
  decide

end Scrub



